import Mathlib

/-!
Verification of the zoned-block-device tools (blkreport, blkzonecmd, blkreset)
and the ZDM superblock probe.

The C sources are shallowly embedded as pure Lean functions.  Machine
integers are modelled as `Nat` with explicit `% 2 ^ w` at the points where
the C arithmetic can wrap.  The host is modelled as little-endian: the
`is_big_endian` flag and the `be64toh`/`be32toh` conversions in blkreport.c
only have an effect on little-endian hosts (on a big-endian host `be64toh`
is the identity and the whole endianness machinery degenerates), so raw
loads of the packed wire fields are little-endian interpretations of the
stored bytes, and `be64toh` is a byte swap.
-/

namespace ZonedTools

/-! ### Byte order helpers (little-endian host model) -/

/-- Byte `i` (little-endian position) of the value `v`. -/
def byteOf (v i : Nat) : Nat := v / 256 ^ i % 256

/-- 32-bit byte swap: `be32toh` on a little-endian host. -/
def bswap32 (v : Nat) : Nat :=
  byteOf v 0 * 256 ^ 3 + byteOf v 1 * 256 ^ 2 + byteOf v 2 * 256 + byteOf v 3

/-- 64-bit byte swap: `be64toh` on a little-endian host. -/
def bswap64 (v : Nat) : Nat :=
  byteOf v 0 * 256 ^ 7 + byteOf v 1 * 256 ^ 6 + byteOf v 2 * 256 ^ 5 +
  byteOf v 3 * 256 ^ 4 + byteOf v 4 * 256 ^ 3 + byteOf v 5 * 256 ^ 2 +
  byteOf v 6 * 256 + byteOf v 7

/-- blkreport.c `endian64`: byte-swap the raw 64-bit load when the report
data was detected (or declared) big-endian. -/
def endian64 (is_big_endian : Bool) (v : Nat) : Nat :=
  if is_big_endian then bswap64 v else v

/-- blkreport.c `endian32`. -/
def endian32 (is_big_endian : Bool) (v : Nat) : Nat :=
  if is_big_endian then bswap32 v else v

/-! ### blkreport.c data model

`struct bdev_zone_descriptor` is a packed 64-byte record; the multi-byte
fields are modelled by the value of their raw host-order (little-endian)
load, as obtained by dereferencing the packed struct field in C. -/

/-- One 64-byte wire descriptor from `struct bdev_zone_descriptor`
(blkreport.c lines 213-221).  `length`, `lba_start`, `lba_wptr` hold the
raw host-order loads of the nominally big-endian 64-bit fields. -/
structure BdevZoneDescriptor where
  type : Nat
  flags : Nat
  length : Nat
  lba_start : Nat
  lba_wptr : Nat
deriving DecidableEq, Inhabited, Repr

/-- The report envelope `struct bdev_zone_report` (blkreport.c lines
234-241) together with the descriptors present in the report buffer after
the 64-byte envelope. -/
structure BdevZoneReport where
  descriptor_count : Nat
  same_field : Nat
  maximum_lba : Nat
  descriptors : List BdevZoneDescriptor
deriving DecidableEq, Inhabited, Repr

/-- One line of output of `print_zones`: the decoded fields printed for a
single descriptor (blkreport.c lines 354-371). -/
structure PrintedZone where
  start : Nat
  len : Nat
  wptr : Nat
  reset : Nat
  non_seq : Nat
  cond : Nat
  ztype : Nat
deriving DecidableEq, Inhabited, Repr

/-- Decode of one descriptor as printed by `print_zones`. -/
def printedOf (is_big_endian : Bool) (d : BdevZoneDescriptor) : PrintedZone :=
  { start := endian64 is_big_endian d.lba_start
    len := endian64 is_big_endian d.length
    wptr := endian64 is_big_endian d.lba_wptr
    reset := d.flags % 2
    non_seq := d.flags / 2 % 2
    cond := d.flags / 16 % 16
    ztype := d.type % 16 }

/-- The descriptor loop of `print_zones` (blkreport.c lines 354-372):
iterate up to `count` descriptors, stopping early at the first descriptor
whose decoded length is zero. -/
def decodeZones (is_big_endian : Bool) :
    List BdevZoneDescriptor → Nat → List PrintedZone
  | _, 0 => []
  | [], _ + 1 => []
  | d :: rest, n + 1 =>
    if endian64 is_big_endian d.length = 0 then []
    else printedOf is_big_endian d :: decodeZones is_big_endian rest n

/-- blkreport.c `print_zones` (lines 334-372).  `size` is the `uint32_t`
byte capacity of the report buffer.  `max_count` mirrors the C expression
`(size - sizeof(struct bdev_zone_report)) / sizeof(struct
bdev_zone_descriptor)` evaluated in `size_t` arithmetic and then stored in
a `uint32_t` (both struct sizes are 64 bytes). -/
def print_zones (is_big_endian : Bool) (info : BdevZoneReport) (size : Nat) :
    List PrintedZone :=
  let count := endian32 is_big_endian info.descriptor_count
  let max_count := (size % 2 ^ 32 + 2 ^ 64 - 64) % 2 ^ 64 / 64 % 2 ^ 32
  let count2 := if count > max_count then max_count else count
  decodeZones is_big_endian info.descriptors count2

/-- The canonical zone-length fingerprint tested by `test_endian`
(blkreport.c lines 305-310). -/
def canonical_len (len : Nat) : Bool :=
  len == 0x080000 || len == 0x100000 || len == 0x200000 ||
  len == 0x300000 || len == 0x400000 || len == 0x800000

/-- blkreport.c `test_endian` (lines 296-315): with the endian probe
enabled, look at the raw host-order load of the first descriptor's length
field; a canonical-zone-size match declares the data little-endian,
otherwise big-endian.  With the probe disabled (explicit `-e` endianness)
the previously supplied flag is returned untouched.  Returns the resulting
`is_big_endian` flag. -/
def test_endian (do_endian_probe is_big_endian : Bool)
    (info : BdevZoneReport) : Bool :=
  let len := (info.descriptors.headD default).length
  if !do_endian_probe then is_big_endian
  else if canonical_len len then false else true

/-- blkreport.c `ZBC_REPORT_OPTION_MASK`. -/
def ZBC_REPORT_OPTION_MASK : Nat := 0x3f

/-- blkreport.c `ZBC_ZONE_REPORTING_OPTION_RESERVED`. -/
def ZBC_ZONE_REPORTING_OPTION_RESERVED : Nat := 0x40

/-- blkreport.c `is_report_option_valid` (lines 374-397).  Values 0
through 7 are the zone-condition filters, 0x10 and 0x11 the need-reset and
non-seq filters and 0x3f the non-write-pointer filter. -/
def is_report_option_valid (ropt : Nat) : Bool :=
  let opt := ropt &&& ZBC_REPORT_OPTION_MASK
  if ropt &&& ZBC_ZONE_REPORTING_OPTION_RESERVED ≠ 0 then false
  else if opt ≤ 7 then true
  else if opt = 0x10 ∨ opt = 0x11 ∨ opt = 0x3f then true
  else false

/-- blkreport.c `MAX_REPORT_LEN` (line 467). -/
def MAX_REPORT_LEN : Nat := 2 ^ 19

/-- The report-length adjustment of blkreport.c `main` (lines 570-574):
round down to a multiple of 512, raise to 512 from below, lower to 512k
from above. -/
def clamp_length (length : Nat) : Nat :=
  let l1 := length / 512 * 512
  let l2 := if l1 < 512 then 512 else l1
  if l2 > MAX_REPORT_LEN then MAX_REPORT_LEN else l2

/-- Outcome of the validation tail of blkreport.c `main` (lines 561-580):
either one of the pre-device validation failures, or the BLKREPORT query
as issued by `do_report`. -/
inductive ReportOutcome where
  | errAlign
  | errOffset
  | errBadOption
  | queried (lba len : Nat) (fua : Bool) (ropt : Nat)
deriving DecidableEq, Repr

/-- blkreport.c `main` after geometry is known (lines 561-580): offset
alignment and range checks, length clamping, report-option validation and
finally the BLKREPORT query with the report option truncated to its low
byte (`ropt & 0xFF` at line 579). -/
def blkreport_run (secsize blksize offset length ropt : Nat) (fua : Bool) :
    ReportOutcome :=
  if offset % secsize ≠ 0 then .errAlign
  else if offset > blksize then .errOffset
  else
    let len := clamp_length length
    if !is_report_option_valid ropt then .errBadOption
    else .queried offset len fua (ropt % 256)

/-! ### blkzonecmd.c -/

/-- blkzonecmd.c `ZONE_ACTION_CLOSE`. -/
def ZONE_ACTION_CLOSE : Nat := 0x01

/-- blkzonecmd.c `ZONE_ACTION_FINISH`. -/
def ZONE_ACTION_FINISH : Nat := 0x02

/-- blkzonecmd.c `ZONE_ACTION_OPEN`. -/
def ZONE_ACTION_OPEN : Nat := 0x03

/-- blkzonecmd.c `ZONE_ACTION_RESET`. -/
def ZONE_ACTION_RESET : Nat := 0x04

/-- The value of `~0ul` on a 64-bit platform, used as the "all zones"
sentinel for the zone locator LBA. -/
def U64_MAX : Nat := 2 ^ 64 - 1

/-- Outcome of the validation-and-dispatch tail of blkzonecmd.c `main`
(lines 224-257). -/
inductive ZonecmdOutcome where
  | errAlign
  | errOffset
  | errAllNonzero
  | errUnknownAction
  | issued (zone_locator_lba action : Nat) (all_zones force_unit_access : Bool)
deriving DecidableEq, Repr

/-- blkzonecmd.c `main` after geometry is known (lines 224-257): the
alignment and range checks are skipped for the `~0` sentinel; for a known
action the request is assembled, the sentinel is translated to LBA 0 with
the all-zones flag set, the all-zones/non-zero-LBA conflict is rejected,
and otherwise the BLKZONEACTION ioctl is issued. -/
def blkzonecmd_run (secsize blksize act zone_lba : Nat) (all fua : Bool) :
    ZonecmdOutcome :=
  if zone_lba ≠ U64_MAX ∧ zone_lba % secsize ≠ 0 then .errAlign
  else if zone_lba ≠ U64_MAX ∧ zone_lba > blksize then .errOffset
  else if act = ZONE_ACTION_CLOSE ∨ act = ZONE_ACTION_FINISH ∨
          act = ZONE_ACTION_OPEN ∨ act = ZONE_ACTION_RESET then
    let lba := if zone_lba = U64_MAX then 0 else zone_lba
    let az := if zone_lba = U64_MAX then true else all
    if az = true ∧ lba ≠ 0 then .errAllNonzero
    else .issued lba act az fua
  else .errUnknownAction

/-! ### blkreset.c -/

/-- Device-file operations performed by blkreset.c `main`, in program
order: `open` (line 261), the BLKGETSIZE64 ioctl (line 270) and the
BLKRESETZONE ioctl (line 289). -/
inductive DevOp where
  | openDev
  | getSize
  | resetZone (sector nr_sectors : Nat)
deriving DecidableEq, Repr

/-- Outcome of blkreset.c `main` (lines 257-292). -/
inductive ResetOutcome where
  | errNoZoneSize
  | errAlign
  | errTooLarge
  | issued (sector nr_sectors : Nat)
deriving DecidableEq, Repr

/-- blkreset.c `main` from the zone-size lookup onwards (lines 257-292),
with the device-file operations it performs recorded in order.  `zsize` is
the result of the `get_zone_size` attribute lookup, `blkbytes` the
BLKGETSIZE64 result (device size in bytes).  The source computes
`blksectors = blksize << 9` (line 273, a left shift of the byte size),
checks alignment with the bitmask `zsector & (zsize - 1)` (line 276),
computes `zlen = zcount * zsize` and clamps it against `blksectors`
(lines 283-285); all in `uint64_t` arithmetic. -/
def blkreset_run (zsize blkbytes zsector zcount : Nat) :
    ResetOutcome × List DevOp :=
  if zsize = 0 then (.errNoZoneSize, [])
  else
    let ops := [DevOp.openDev, DevOp.getSize]
    let blksectors := blkbytes * 512 % 2 ^ 64
    if zsector &&& (zsize - 1) ≠ 0 then (.errAlign, ops)
    else if zsector > blksectors then (.errTooLarge, ops)
    else
      let zlen := zcount * zsize % 2 ^ 64
      let zlen2 := if (zsector + zlen) % 2 ^ 64 > blksectors
                   then blksectors - zsector else zlen
      (.issued zsector zlen2, ops ++ [DevOp.resetZone zsector zlen2])

/-! ### libblkid ZDM superblock probe (zdm.c)

The superblock is modelled as the raw byte buffer of `struct
zdm_super_block` (176 bytes with padding, on a little-endian host): the
stored checksum is the little-endian 32-bit value at offset 0 and the UUID
occupies bytes 24-39.  The CRC routine from lib/crc32.c and the
`blkid_probe_verify_csum` / `blkid_probe_set_uuid` library helpers are not
part of this repository and are modelled from the spec. -/

/-- Little-endian 32-bit load at byte offset `off`. -/
def readLE32 (buf : List Nat) (off : Nat) : Nat :=
  buf.getD off 0 + buf.getD (off + 1) 0 * 256 +
  buf.getD (off + 2) 0 * 256 ^ 2 + buf.getD (off + 3) 0 * 256 ^ 3

/-- Little-endian 32-bit store of `v` at byte offset `off`. -/
def writeLE32 (buf : List Nat) (off v : Nat) : List Nat :=
  ((((buf.set off (v % 256)).set (off + 1) (v / 256 % 256)).set
    (off + 2) (v / 256 ^ 2 % 256)).set (off + 3) (v / 256 ^ 3 % 256))

/-- One bit step of the reflected CRC-32 with polynomial 0xEDB88320. -/
def crc32_round (c : Nat) : Nat :=
  if c % 2 = 1 then c / 2 ^^^ 0xEDB88320 else c / 2

/-- One byte step of the reflected CRC-32. -/
def crc32_step (crc b : Nat) : Nat :=
  (List.range 8).foldl (fun c _ => crc32_round c) (crc ^^^ b % 256)

/-- Modelled from the spec: the `crc32` routine of lib/crc32.c is not
under src/; per the spec it is the standard reflected CRC-32 with
polynomial 0xEDB88320, the all-ones initial value being passed as the seed
and the final all-ones XOR applied by the caller (zdm.c line 50). -/
def crc32 (seed : Nat) (data : List Nat) : Nat :=
  data.foldl crc32_step seed

/-- Size in bytes of `struct zdm_super_block` (including alignment
padding): fields through `zac_zbc` end at offset 92, the 64-byte label at
156, then 4 bytes of padding and two 8-byte fields. -/
def ZDM_SB_SIZE : Nat := 176

/-- zdm.c `zdm_crc32` (lines 42-54) as explicit state passing: save the
stored checksum, zero the checksum field, CRC the whole record seeded and
finalized with all-ones, restore the stored checksum.  Returns the
computed CRC and the record as left behind. -/
def zdm_crc32_run (sblk : List Nat) : Nat × List Nat :=
  let icrc := readLE32 sblk 0
  let sblk1 := writeLE32 sblk 0 0
  let cval := crc32 0xFFFFFFFF sblk1 ^^^ 0xFFFFFFFF
  let sblk2 := writeLE32 sblk1 0 icrc
  (cval, sblk2)

/-- The computed checksum alone, as the claim states it: CRC-32 of the
record with the checksum field zeroed, all-ones initial value and final
XOR. -/
def zdm_crc32_calc (sblk : List Nat) : Nat :=
  crc32 0xFFFFFFFF (writeLE32 sblk 0 0) ^^^ 0xFFFFFFFF

/-- Result of the probe: the extracted UUID on success, not-found
otherwise. -/
inductive ProbeResult where
  | ok (uuid : List Nat)
  | notFound
deriving DecidableEq, Repr

/-- Byte offset of the `uuid` field of `struct zdm_super_block`:
4 (crc32) + 4 (reserved) + 16 (magic). -/
def uuid_of (sblk : List Nat) : List Nat := (sblk.drop 24).take 16

/-- zdm.c `probe_zdm` (lines 57-72).  `blkid_probe_verify_csum` and
`blkid_probe_set_uuid` are library helpers outside src/ and are modelled
from the spec: the former succeeds exactly when the computed checksum
equals the stored (little-endian, `le32_to_cpu`) checksum, the latter
records the 16 UUID bytes.  A failed checksum yields not-found with no
identity emitted. -/
def probe_zdm (sblk : List Nat) : ProbeResult :=
  let r := zdm_crc32_run sblk
  if r.1 = readLE32 r.2 0 then .ok (uuid_of r.2) else .notFound

/-! ## Helper lemmas -/

/-- Masking with an all-ones low bitmask is reduction modulo the
corresponding power of two. -/
lemma and_two_pow_sub_one (x k : Nat) : x &&& (2 ^ k - 1) = x % 2 ^ k := by
  apply Nat.eq_of_testBit_eq
  intro i
  rw [Nat.testBit_and, Nat.testBit_two_pow_sub_one, Nat.testBit_mod_two_pow]
  exact Bool.and_comm _ _

/-- The C idiom `count > max ? max : count` is `min`. -/
lemma ite_gt_eq_min (a b : Nat) : (if a > b then b else a) = min a b := by
  by_cases h : a > b
  · rw [if_pos h, Nat.min_eq_right (Nat.le_of_lt h)]
  · rw [if_neg h, Nat.min_eq_left (Nat.le_of_not_lt h)]

/-- The descriptor loop of `print_zones` produces exactly the printed
decodes of the longest zero-length-free front of the first `n`
descriptors. -/
lemma decodeZones_eq_takeWhile (bigE : Bool) :
    ∀ (n : Nat) (ds : List BdevZoneDescriptor), n ≤ ds.length →
      decodeZones bigE ds n =
        ((ds.take n).takeWhile (fun d => endian64 bigE d.length != 0)).map
          (printedOf bigE) := by
  intro n
  induction n with
  | zero => intro ds _; simp [decodeZones]
  | succ m ih =>
    intro ds hle
    match ds with
    | [] => simp at hle
    | d :: rest =>
      simp only [decodeZones, List.take_succ_cons, List.takeWhile_cons]
      by_cases hz : endian64 bigE d.length = 0
      · simp [hz]
      · simp only [hz, if_neg hz, bne_iff_ne, ne_eq, not_false_eq_true,
          if_pos, List.map_cons]
        rw [ih rest (by simpa using hle)]
        simp [hz]

end ZonedTools

namespace ZonedTools

/-! ## Claims -/

/-- C9: for every ranged reset invocation, a zone size of zero from the
device-attribute lookup is a hard error raised before the device is even
opened: no device-file operation (in particular no BLKRESETZONE reset
command) is performed. -/
theorem C9_zero_zone_size_hard_error (blkbytes zsector zcount : Nat) :
    blkreset_run 0 blkbytes zsector zcount = (ResetOutcome.errNoZoneSize, []) := by
  simp [blkreset_run]

/-- C5 (code bug): with a 4096-byte device (8 sectors of 512 bytes), zone
size 8 sectors, start sector 0 and zone count 100, blkreset.c issues a
reset range of 800 sectors, far beyond the 8-sector capacity: line 273
computes the clamp bound as `blksize << 9` (bytes times 512) although the
variable `blksectors` is meant to be the capacity in sectors
(`blksize >> 9`), so the clamp required by the claim never fires here. -/
theorem C5_capacity_clamp_divergence :
    (blkreset_run 8 4096 0 100).1 = ResetOutcome.issued 0 800 ∧
    4096 / 512 = 8 ∧ 0 + 800 > 8 := by decide

/-- C6 (counterexample): with the non-power-of-two zone size 3, start
sector 4 is not a multiple of the zone size, yet the bitmask alignment
test of blkreset.c line 276 computes `4 & (3 - 1) = 0`, accepts the
request and issues the reset to the device. -/
theorem C6_counterexample :
    ¬ (3 ∣ 4) ∧
    (blkreset_run 3 1048576 4 1).1 = ResetOutcome.issued 4 3 ∧
    DevOp.resetZone 4 3 ∈ (blkreset_run 3 1048576 4 1).2 := by decide

/-- C6 (amended): for every power-of-two zone size, a start LBA that is
not a multiple of the zone size is rejected by the bitmask alignment
check before the reset command is issued to the device; the code tests
`zsector & (zsize - 1)`, which coincides with the is-a-multiple test
exactly for power-of-two zone sizes. -/
theorem C6_alignment_pow2 (k blkbytes zsector zcount : Nat)
    (hmis : ¬ 2 ^ k ∣ zsector) :
    (blkreset_run (2 ^ k) blkbytes zsector zcount).1 = ResetOutcome.errAlign ∧
    ∀ s n, DevOp.resetZone s n ∉ (blkreset_run (2 ^ k) blkbytes zsector zcount).2 := by
  have hz : (2 : Nat) ^ k ≠ 0 := by positivity
  have hmod : zsector % 2 ^ k ≠ 0 := fun h => hmis (Nat.dvd_of_mod_eq_zero h)
  have hand : zsector &&& (2 ^ k - 1) ≠ 0 := by
    rw [and_two_pow_sub_one]; exact hmod
  simp only [blkreset_run, if_neg hz, if_pos hand]
  refine ⟨by trivial, ?_⟩
  intro s n
  simp

/-- C6 witness: zone size 8 = 2 ^ 3, start sector 4. -/
theorem C6_alignment_pow2_witness :
    ¬ (2 ^ 3 ∣ 4) ∧
    ((blkreset_run (2 ^ 3) 1048576 4 1).1 = ResetOutcome.errAlign ∧
     ∀ s n, DevOp.resetZone s n ∉ (blkreset_run (2 ^ 3) 1048576 4 1).2) :=
  ⟨by decide, C6_alignment_pow2 3 1048576 4 1 (by decide)⟩

/-- C7: the report length used for the BLKREPORT query is the requested
32-bit length rounded down to a multiple of 512, then raised to 512 from
below, then lowered to 512k from above; the result is always a multiple
of 512 inside [512, 524288], and a length already of that shape is used
unchanged. -/
theorem C7_length_clamp (L : Nat) (hL : L < 2 ^ 32) :
    clamp_length L % 512 = 0 ∧
    512 ≤ clamp_length L ∧
    clamp_length L ≤ MAX_REPORT_LEN ∧
    clamp_length L = min (max (L / 512 * 512) 512) MAX_REPORT_LEN ∧
    (L % 512 = 0 → 512 ≤ L → L ≤ MAX_REPORT_LEN → clamp_length L = L) := by
  have hmrl : MAX_REPORT_LEN = 524288 := by norm_num [MAX_REPORT_LEN]
  simp only [clamp_length, hmrl]
  split <;> split <;> refine ⟨by omega, by omega, by omega, by omega, by omega⟩

/-- C7 witness: the requested length 1000 is rounded down and raised to
512. -/
theorem C7_length_clamp_witness :
    1000 < 2 ^ 32 ∧
    (clamp_length 1000 % 512 = 0 ∧
     512 ≤ clamp_length 1000 ∧
     clamp_length 1000 ≤ MAX_REPORT_LEN ∧
     clamp_length 1000 = min (max (1000 / 512 * 512) 512) MAX_REPORT_LEN ∧
     (1000 % 512 = 0 → 512 ≤ 1000 → 1000 ≤ MAX_REPORT_LEN →
       clamp_length 1000 = 1000)) :=
  ⟨by decide, C7_length_clamp 1000 (by decide)⟩

/-- The report whose first descriptor stores, in wire order, the bytes of
the big-endian encoding of 0x100000 (so the raw little-endian host load
is 0x0000100000000000). -/
def c3_report : BdevZoneReport :=
  { descriptor_count := 1, same_field := 1, maximum_lba := 0,
    descriptors := [⟨2, 0, 0x0000100000000000, 0, 0⟩] }

/-- C3 (counterexample): the first descriptor's length interpreted as
big-endian is 0x100000, a member of the canonical set, yet the resolver
declares the data big-endian: test_endian compares the raw host-order
(little-endian) load of the field against the canonical values, not its
big-endian interpretation. -/
theorem C3_counterexample :
    bswap64 ((c3_report.descriptors.headD default).length) = 0x100000 ∧
    canonical_len (bswap64 ((c3_report.descriptors.headD default).length)) = true ∧
    test_endian true false c3_report = true ∧
    ¬ (test_endian true false c3_report = false ↔
        canonical_len (bswap64 ((c3_report.descriptors.headD default).length)) = true) := by
  decide

/-- C3 (amended): with no caller-supplied endianness the resolver declares
the data little-endian if and only if the raw host-order (little-endian,
unswapped) load of the first descriptor's length field equals one of
0x080000, 0x100000, 0x200000, 0x300000, 0x400000, 0x800000; otherwise it
declares big-endian.  When the caller supplies an explicit endianness the
report is not consulted and the supplied value is used. -/
theorem C3_endianness_resolver (is_big_endian0 : Bool) (info : BdevZoneReport) :
    test_endian false is_big_endian0 info = is_big_endian0 ∧
    (test_endian true is_big_endian0 info = false ↔
      canonical_len ((info.descriptors.headD default).length) = true) := by
  refine ⟨rfl, ?_⟩
  simp only [test_endian, Bool.not_true, Bool.false_eq_true, if_false]
  by_cases h : canonical_len ((info.descriptors.headD default).length) = true <;>
    simp [h]

/-- C4: for every zone action request with one of the four known actions:
a request with the all-zones flag and a target LBA that is neither zero
nor the ~0 sentinel fails validation and is never issued; a request whose
target LBA is the ~0 sentinel is translated to LBA 0 with the all-zones
flag set and is issued; a request with the all-zones flag and target LBA 0
is issued. -/
theorem C4_all_zones_exclusive (secsize blksize act zone_lba : Nat)
    (all fua : Bool)
    (hact : act = ZONE_ACTION_CLOSE ∨ act = ZONE_ACTION_FINISH ∨
            act = ZONE_ACTION_OPEN ∨ act = ZONE_ACTION_RESET) :
    (all = true → zone_lba ≠ 0 → zone_lba ≠ U64_MAX →
      ∀ l a az f, blkzonecmd_run secsize blksize act zone_lba all fua ≠
        ZonecmdOutcome.issued l a az f) ∧
    (zone_lba = U64_MAX →
      blkzonecmd_run secsize blksize act zone_lba all fua =
        ZonecmdOutcome.issued 0 act true fua) ∧
    (all = true → zone_lba = 0 →
      blkzonecmd_run secsize blksize act zone_lba all fua =
        ZonecmdOutcome.issued 0 act true fua) := by
  refine ⟨?_, ?_, ?_⟩
  · intro hall hz hs l a az f
    subst hall
    simp only [blkzonecmd_run, hs]
    split_ifs with h1 h2 h3 h4 <;> simp_all
  · intro hs
    subst hs
    have h1 : ¬(U64_MAX ≠ U64_MAX ∧ U64_MAX % secsize ≠ 0) := by simp
    have h2 : ¬(U64_MAX ≠ U64_MAX ∧ U64_MAX > blksize) := by simp
    simp only [blkzonecmd_run]
    rw [if_neg h1, if_neg h2, if_pos hact]
    simp
  · intro hall hz
    subst hz
    subst hall
    have h0 : (0 : Nat) ≠ U64_MAX := by decide
    have h1 : ¬((0 : Nat) ≠ U64_MAX ∧ 0 % secsize ≠ 0) := by simp
    have h2 : ¬((0 : Nat) ≠ U64_MAX ∧ 0 > blksize) := by simp
    simp only [blkzonecmd_run]
    rw [if_neg h1, if_neg h2, if_pos hact]
    simp [h0]

/-- C4 witness: a reset request with the ~0 sentinel LBA is translated and
issued with LBA 0 and the all-zones flag. -/
theorem C4_all_zones_exclusive_witness :
    ((4 : Nat) = ZONE_ACTION_CLOSE ∨ (4 : Nat) = ZONE_ACTION_FINISH ∨
     (4 : Nat) = ZONE_ACTION_OPEN ∨ (4 : Nat) = ZONE_ACTION_RESET) ∧
    ((false = true → U64_MAX ≠ 0 → U64_MAX ≠ U64_MAX →
       ∀ l a az f, blkzonecmd_run 512 1073741824 4 U64_MAX false false ≠
         ZonecmdOutcome.issued l a az f) ∧
     (U64_MAX = U64_MAX →
       blkzonecmd_run 512 1073741824 4 U64_MAX false false =
         ZonecmdOutcome.issued 0 4 true false) ∧
     (false = true → U64_MAX = 0 →
       blkzonecmd_run 512 1073741824 4 U64_MAX false false =
         ZonecmdOutcome.issued 0 4 true false)) :=
  ⟨by decide, C4_all_zones_exclusive 512 1073741824 4 U64_MAX false false (by decide)⟩

/-- The filter values accepted by `is_report_option_valid`, as listed by
the claim: the low six bits must be 0-7, 0x10, 0x11 or 0x3f. -/
def valid_report_filters : List Nat := [0, 1, 2, 3, 4, 5, 6, 7, 0x10, 0x11, 0x3f]

/-- Bounded enumeration of the filter test on the low six bits. -/
lemma report_opt_mem (m : Nat) (hm : m < 64) :
    (if m ≤ 7 then true
     else if m = 0x10 ∨ m = 0x11 ∨ m = 0x3f then true else false) = true ↔
    m ∈ valid_report_filters := by
  revert m
  decide

/-- C8: a report option passes validation exactly when its reserved bit
0x40 is clear and its low six bits are one of the enumerated filters; for
every rejected option blkreport exits before the BLKREPORT query is ever
issued. -/
theorem C8_report_filter_validation (ropt : Nat) (hr : ropt < 2 ^ 64)
    (secsize blksize offset length : Nat) (fua : Bool) :
    (is_report_option_valid ropt = true ↔
      ropt &&& 0x40 = 0 ∧ (ropt &&& 0x3f) ∈ valid_report_filters) ∧
    (is_report_option_valid ropt = false →
      ∀ lba len f r, blkreport_run secsize blksize offset length ropt fua ≠
        ReportOutcome.queried lba len f r) := by
  have h63 : ropt &&& 0x3f = ropt % 64 := by
    have e : (0x3f : Nat) = 2 ^ 6 - 1 := by norm_num
    rw [e, and_two_pow_sub_one]
    norm_num
  constructor
  · have hval : is_report_option_valid ropt =
        (if ropt &&& 0x40 = 0 then
          (if ropt % 64 ≤ 7 then true
           else if ropt % 64 = 0x10 ∨ ropt % 64 = 0x11 ∨ ropt % 64 = 0x3f
                then true else false)
         else false) := by
      simp only [is_report_option_valid, ZBC_REPORT_OPTION_MASK,
        ZBC_ZONE_REPORTING_OPTION_RESERVED, h63]
      by_cases h40 : ropt &&& 0x40 = 0
      · rw [if_pos h40, if_neg (by simp [h40])]
      · rw [if_neg h40, if_pos h40]
    rw [hval, h63]
    by_cases h40 : ropt &&& 0x40 = 0
    · rw [if_pos h40]
      simp only [h40, true_and]
      exact report_opt_mem (ropt % 64) (Nat.mod_lt _ (by norm_num))
    · rw [if_neg h40]
      simp [h40]
  · intro hv lba len f r
    simp only [blkreport_run, hv]
    split
    · simp
    · split
      · simp
      · simp

/-- Overwriting the first four bytes with the little-endian decomposition
of the 32-bit value they already spell restores the original buffer. -/
lemma writeLE32_restore (buf : List Nat) (hlen : 4 ≤ buf.length)
    (hb : ∀ b ∈ buf, b < 256) :
    writeLE32 (writeLE32 buf 0 0) 0 (readLE32 buf 0) = buf := by
  have l0 : 0 < buf.length := by omega
  have l1 : 1 < buf.length := by omega
  have l2 : 2 < buf.length := by omega
  have l3 : 3 < buf.length := by omega
  have b0 : buf[0] < 256 := hb _ (List.getElem_mem l0)
  have b1 : buf[1] < 256 := hb _ (List.getElem_mem l1)
  have b2 : buf[2] < 256 := hb _ (List.getElem_mem l2)
  have b3 : buf[3] < 256 := hb _ (List.getElem_mem l3)
  have hv : readLE32 buf 0 =
      buf[0] + buf[1] * 256 + buf[2] * 65536 + buf[3] * 16777216 := by
    simp only [readLE32, Nat.zero_add]
    rw [List.getD_eq_getElem buf 0 l0, List.getD_eq_getElem buf 0 l1,
      List.getD_eq_getElem buf 0 l2, List.getD_eq_getElem buf 0 l3]
    norm_num
  have p2 : (256 : Nat) ^ 2 = 65536 := by norm_num
  have p3 : (256 : Nat) ^ 3 = 16777216 := by norm_num
  apply List.ext_getElem
  · simp [writeLE32]
  · intro i hi1 hi2
    simp only [writeLE32, Nat.zero_add, List.getElem_set, p2, p3]
    rcases i with _ | _ | _ | _ | i
    · norm_num
      rw [hv]
      omega
    · norm_num
      rw [hv]
      omega
    · norm_num
      rw [hv]
      omega
    · norm_num
      rw [hv]
      omega
    · split_ifs <;> first | contradiction | omega

/-- C8 witness: filter 0x11 (non-sequential-active) is accepted and the
query is issued; the iff and the no-query guarantee are instantiated at
it. -/
theorem C8_report_filter_validation_witness :
    0x11 < 2 ^ 64 ∧
    ((is_report_option_valid 0x11 = true ↔
       0x11 &&& 0x40 = 0 ∧ (0x11 &&& 0x3f) ∈ valid_report_filters) ∧
     (is_report_option_valid 0x11 = false →
       ∀ lba len f r, blkreport_run 512 1073741824 0 4096 0x11 false ≠
         ReportOutcome.queried lba len f r)) :=
  ⟨by decide, C8_report_filter_validation 0x11 (by decide) 512 1073741824 0 4096 false⟩

/-- C10: the checksum computation is observationally pure on the record:
it zeroes the stored checksum field to compute the CRC but writes the
original stored value back, so the record left behind is byte-for-byte
the record it was given. -/
theorem C10_checksum_frame (sblk : List Nat) (hlen : 4 ≤ sblk.length)
    (hb : ∀ b ∈ sblk, b < 256) :
    (zdm_crc32_run sblk).2 = sblk := by
  simpa [zdm_crc32_run] using writeLE32_restore sblk hlen hb

/-- C10 witness: a concrete five-byte record is returned unchanged. -/
theorem C10_checksum_frame_witness :
    4 ≤ [1, 2, 3, 4, 5].length ∧ (∀ b ∈ [1, 2, 3, 4, 5], b < 256) ∧
    (zdm_crc32_run [1, 2, 3, 4, 5]).2 = [1, 2, 3, 4, 5] :=
  ⟨by decide, by decide, C10_checksum_frame [1, 2, 3, 4, 5] (by decide) (by decide)⟩

/-- C2: probing succeeds only when the CRC-32 of the whole record with the
checksum field zeroed (reflected CRC-32, polynomial 0xEDB88320, initial
and final XOR with all-ones) equals the stored checksum, and the UUID it
emits is the record's own; a record failing the check yields not-found
with no identity fields emitted. -/
theorem C2_checksum_gate (sblk : List Nat) (hlen : sblk.length = ZDM_SB_SIZE)
    (hb : ∀ b ∈ sblk, b < 256) :
    (∀ u, probe_zdm sblk = ProbeResult.ok u →
      zdm_crc32_calc sblk = readLE32 sblk 0 ∧ u = uuid_of sblk) ∧
    (zdm_crc32_calc sblk ≠ readLE32 sblk 0 →
      probe_zdm sblk = ProbeResult.notFound) := by
  have h4 : 4 ≤ sblk.length := by rw [hlen]; norm_num [ZDM_SB_SIZE]
  have hrestore : (zdm_crc32_run sblk).2 = sblk := by
    simpa [zdm_crc32_run] using writeLE32_restore sblk h4 hb
  have hfst : (zdm_crc32_run sblk).1 = zdm_crc32_calc sblk := rfl
  have hprobe : probe_zdm sblk =
      if zdm_crc32_calc sblk = readLE32 sblk 0
      then ProbeResult.ok (uuid_of sblk) else ProbeResult.notFound := by
    simp only [probe_zdm, hrestore, hfst]
  constructor
  · intro u hu
    rw [hprobe] at hu
    by_cases h : zdm_crc32_calc sblk = readLE32 sblk 0
    · rw [if_pos h] at hu
      exact ⟨h, by injection hu with h2; exact h2.symm⟩
    · rw [if_neg h] at hu
      exact absurd hu (by simp)
  · intro h
    rw [hprobe, if_neg h]

set_option maxRecDepth 4096 in
/-- C2 witness: the all-zero 176-byte block fails the checksum gate and
is rejected as not-found. -/
theorem C2_checksum_gate_witness :
    (List.replicate 176 0).length = ZDM_SB_SIZE ∧
    (∀ b ∈ List.replicate 176 0, b < 256) ∧
    ((∀ u, probe_zdm (List.replicate 176 0) = ProbeResult.ok u →
        zdm_crc32_calc (List.replicate 176 0) = readLE32 (List.replicate 176 0) 0 ∧
        u = uuid_of (List.replicate 176 0)) ∧
     (zdm_crc32_calc (List.replicate 176 0) ≠ readLE32 (List.replicate 176 0) 0 →
        probe_zdm (List.replicate 176 0) = ProbeResult.notFound)) :=
  ⟨by simp [ZDM_SB_SIZE], by simp, C2_checksum_gate (List.replicate 176 0)
    (by simp [ZDM_SB_SIZE]) (by simp)⟩

/-- C1: for a report buffer of capacity `size` bytes (at least the
64-byte envelope) declaring N descriptors (the decoded
`descriptor_count`), with K = (size - 64) / 64 the descriptor capacity of
the buffer, the decoder emits exactly the printed decodes of the longest
front of the first min(N, K) descriptors that is free of zero-length
descriptors: with no zero-length descriptor among the first min(N, K),
exactly min(N, K) descriptors are produced, and a zero-length descriptor
at index i < min(N, K) stops decoding there so that only the descriptors
before index i are produced. -/
theorem C1_truncation_invariant (bigE : Bool) (info : BdevZoneReport) (size : Nat)
    (h64 : 64 ≤ size) (h32 : size < 2 ^ 32)
    (hbuf : min (endian32 bigE info.descriptor_count) ((size - 64) / 64) ≤
      info.descriptors.length) :
    print_zones bigE info size =
      ((info.descriptors.take
          (min (endian32 bigE info.descriptor_count) ((size - 64) / 64))).takeWhile
        (fun d => endian64 bigE d.length != 0)).map (printedOf bigE) ∧
    ((∀ d ∈ info.descriptors.take
        (min (endian32 bigE info.descriptor_count) ((size - 64) / 64)),
        endian64 bigE d.length ≠ 0) →
      (print_zones bigE info size).length =
        min (endian32 bigE info.descriptor_count) ((size - 64) / 64)) := by
  have hmax : (size % 2 ^ 32 + 2 ^ 64 - 64) % 2 ^ 64 / 64 % 2 ^ 32 =
      (size - 64) / 64 := by
    omega
  have hpz : print_zones bigE info size =
      decodeZones bigE info.descriptors
        (min (endian32 bigE info.descriptor_count) ((size - 64) / 64)) := by
    simp only [print_zones, hmax, ite_gt_eq_min]
  rw [hpz, decodeZones_eq_takeWhile bigE _ _ hbuf]
  refine ⟨rfl, ?_⟩
  intro hnz
  have hall : ∀ d ∈ info.descriptors.take
      (min (endian32 bigE info.descriptor_count) ((size - 64) / 64)),
      (endian64 bigE d.length != 0) = true := by
    intro d hd
    simpa using hnz d hd
  rw [List.takeWhile_eq_self_iff.mpr hall, List.length_map, List.length_take]
  exact Nat.min_eq_left hbuf

/-- The scenario report: three declared descriptors of lengths 0x100000,
0x100000, 0 in a 512-byte buffer. -/
def c1_report : BdevZoneReport :=
  { descriptor_count := 3, same_field := 1, maximum_lba := 0,
    descriptors := [⟨2, 0, 0x100000, 0, 0⟩,
                    ⟨2, 0, 0x100000, 0x100000, 0x100000⟩,
                    ⟨0, 0, 0, 0, 0⟩] }

/-- C1 witness: on the scenario report the decoder stops at the
zero-length third descriptor and produces two records. -/
theorem C1_truncation_invariant_witness :
    64 ≤ 512 ∧ 512 < 2 ^ 32 ∧
    min (endian32 false c1_report.descriptor_count) ((512 - 64) / 64) ≤
      c1_report.descriptors.length ∧
    (print_zones false c1_report 512 =
      ((c1_report.descriptors.take
          (min (endian32 false c1_report.descriptor_count) ((512 - 64) / 64))).takeWhile
        (fun d => endian64 false d.length != 0)).map (printedOf false) ∧
     ((∀ d ∈ c1_report.descriptors.take
         (min (endian32 false c1_report.descriptor_count) ((512 - 64) / 64)),
         endian64 false d.length ≠ 0) →
       (print_zones false c1_report 512).length =
         min (endian32 false c1_report.descriptor_count) ((512 - 64) / 64))) :=
  ⟨by decide, by decide, by decide,
   C1_truncation_invariant false c1_report 512 (by decide) (by decide) (by decide)⟩

end ZonedTools
